import Mathlib

/-!
# Bootstrap protocol of `src/routes/create-react-navi-app/index.js`

The module registers an application descriptor with `Navi.app` and supplies an
asynchronous `main` that creates a browser navigation, awaits
`navigation.steady()`, chooses `ReactDOM.hydrate` or `ReactDOM.render` from
`process.env.NODE_ENV`, and calls the chosen renderer once.

The embedding keeps the code and its collaborators apart.  The code is a
`Script`: a tree of collaborator calls, each followed by the continuation that
receives the call's result.  The collaborators (Navi, ReactDOM, the document,
the process environment) are arbitrary state-passing functions, collected in
`Collaborators`.  `Script.run` plays a script against the collaborators and
records every call with its outcome, so statements about "the calls `main`
makes" are statements about the recorded trace, for all collaborators.
-/

namespace NaviApp

/-! ## Values exchanged with the collaborators -/

/-- The route tree imported from `./pages`; an object reference, never looked into here. -/
structure RouteTree where
  ref : Nat
  deriving DecidableEq, Repr

/-- A React component such as the `App` imported from `./App`. -/
structure Component where
  ref : Nat
  deriving DecidableEq, Repr

/-- The navigation object returned by `Navi.createBrowserNavigation`. -/
structure Navigation where
  ref : Nat
  deriving DecidableEq, Repr

/-- A DOM element found by `document.getElementById`. -/
structure DomNode where
  ref : Nat
  deriving DecidableEq, Repr

/-- A thrown JavaScript value (or the reason of a rejected promise). -/
structure JsError where
  message : String
  deriving DecidableEq, Repr

/-- The React element `<App navigation={navigation} />`: a component together with
its `navigation` prop.  Building it does not call the component. -/
structure Element where
  type : Component
  navigation : Navigation
  deriving DecidableEq, Repr

/-- Resolution state of a navigation, as Navi tracks it. -/
inductive NavState where
  | pending
  | resolved
  | failed
  deriving DecidableEq, Repr

/-- How a call ends: it returns a value (for an awaited promise: fulfils), it throws
(rejects), or it never comes back (the awaited promise never settles). -/
inductive Outcome (α : Type) where
  | returned (value : α)
  | threw (error : JsError)
  | pending
  deriving DecidableEq, Repr

/-- Forget the returned value, keeping how the call ended. -/
def Outcome.void {α : Type} : Outcome α → Outcome Unit
  | .returned _ => .returned ()
  | .threw e => .threw e
  | .pending => .pending

/-- Whether the call came back with a value. -/
def Outcome.isReturned {α : Type} : Outcome α → Bool
  | .returned _ => true
  | _ => false

/-! ## Scripts and their execution -/

/-- Straight-line code over a signature of external calls: either finished with a
value, or a call `op` whose result is handed to the rest of the code.  There is no
construct for catching an error, as the source has no `try`. -/
inductive Script (Op : Type) (Ret : Op → Type) (α : Type) : Type where
  | done (value : α)
  | call (op : Op) (next : Ret op → Script Op Ret α)

/-- Behaviour of the outside world: the outcome of each call in a given state, and
the state it leaves. -/
def Handler (Op : Type) (Ret : Op → Type) (σ : Type) : Type :=
  (op : Op) → σ → Outcome (Ret op) × σ

/-- One recorded call together with how it ended. -/
structure Event (Op : Type) (Ret : Op → Type) where
  op : Op
  outcome : Outcome (Ret op)

/-- Whether the recorded call returned normally. -/
def Event.returned {Op : Type} {Ret : Op → Type} (ev : Event Op Ret) : Bool :=
  ev.outcome.isReturned

/-- What one execution leaves behind: the calls made in order, how the code itself
completed, and the final state of the world. -/
structure Run (Op : Type) (Ret : Op → Type) (σ α : Type) where
  trace : List (Event Op Ret)
  completion : Outcome α
  final : σ

/-- Execute a script.  A call that returns feeds the continuation; a call that throws
ends the script with the same error (nothing catches it); a call that never comes
back leaves the script suspended for ever. -/
def Script.run {Op : Type} {Ret : Op → Type} {σ α : Type} :
    Script Op Ret α → Handler Op Ret σ → σ → Run Op Ret σ α
  | .done a, _, s => ⟨[], .returned a, s⟩
  | .call op next, h, s =>
    match h op s with
    | (.returned v, s1) =>
      let r := (next v).run h s1
      ⟨⟨op, .returned v⟩ :: r.trace, r.completion, r.final⟩
    | (.threw e, s1) => ⟨[⟨op, .threw e⟩], .threw e, s1⟩
    | (.pending, s1) => ⟨[⟨op, .pending⟩], .pending, s1⟩

/-- The operations of a trace, in order, without their outcomes. -/
def calls {Op : Type} {Ret : Op → Type} (t : List (Event Op Ret)) : List Op :=
  t.map Event.op

/-! ## The collaborators of `main` -/

/-- The external calls and reads `main` performs. -/
inductive BrowserOp where
  -- `Navi.createBrowserNavigation({ pages })`
  | createBrowserNavigation (pages : RouteTree)
  -- `await navigation.steady()`: the call and the wait for its promise
  | steady (navigation : Navigation)
  -- the read of `process.env.NODE_ENV`
  | nodeEnv
  -- `document.getElementById(id)`
  | getElementById (id : String)
  -- `ReactDOM.hydrate(element, container)`
  | hydrate (element : Element) (container : Option DomNode)
  -- `ReactDOM.render(element, container)`
  | render (element : Element) (container : Option DomNode)
  deriving DecidableEq, Repr

/-- Result type of each operation.  `process.env.NODE_ENV` is a string or `undefined`
(`none`); `getElementById` is an element or `null` (`none`); the results of `steady`
and of the renderers are discarded by `main`. -/
def BrowserOp.Ret : BrowserOp → Type
  | .createBrowserNavigation _ => Navigation
  | .steady _ => Unit
  | .nodeEnv => Option String
  | .getElementById _ => Option DomNode
  | .hydrate _ _ => Unit
  | .render _ _ => Unit

/-- Whether the operation is one of the two rendering entry points. -/
def BrowserOp.isRenderer : BrowserOp → Bool
  | .hydrate _ _ => true
  | .render _ _ => true
  | _ => false

/-- Whether the operation is `Navi.createBrowserNavigation`. -/
def BrowserOp.isCreate : BrowserOp → Bool
  | .createBrowserNavigation _ => true
  | _ => false

/-- Whether the operation is the readiness wait `navigation.steady()`. -/
def BrowserOp.isSteady : BrowserOp → Bool
  | .steady _ => true
  | _ => false

/-- Whether the operation is `ReactDOM.hydrate`. -/
def BrowserOp.isHydrate : BrowserOp → Bool
  | .hydrate _ _ => true
  | _ => false

/-- Whether the operation is `ReactDOM.render`. -/
def BrowserOp.isRender : BrowserOp → Bool
  | .render _ _ => true
  | _ => false

/-- The libraries and browser objects `main` talks to, over a world state `σ`.
Navi and ReactDOM calls may change the world and may throw or never come back.
The environment variable and the DOM lookup are reads of the world.  `navState`
is what Navi knows about a navigation; `main` has no operation that reads it. -/
structure Collaborators (σ : Type) where
  createBrowserNavigation : RouteTree → σ → Outcome Navigation × σ
  steady : Navigation → σ → Outcome Unit × σ
  nodeEnv : σ → Option String
  getElementById : String → σ → Option DomNode
  hydrate : Element → Option DomNode → σ → Outcome Unit × σ
  render : Element → Option DomNode → σ → Outcome Unit × σ
  navState : Navigation → σ → NavState

/-- The navigation a recorded call produced, when the call is a creation that returned. -/
def Event.created : Event BrowserOp BrowserOp.Ret → Option Navigation
  | ⟨.createBrowserNavigation _, .returned navigation⟩ => some navigation
  | _ => none

/-- The navigations created during a trace, in order. -/
def created (t : List (Event BrowserOp BrowserOp.Ret)) : List Navigation :=
  t.filterMap Event.created

/-- Whether the trace holds a readiness wait that returned. -/
def waitReturned (t : List (Event BrowserOp BrowserOp.Ret)) : Bool :=
  t.any fun ev => ev.op.isSteady && ev.returned

/-- The handler that answers each operation of `main` from the collaborators. -/
def Collaborators.handler {σ : Type} (c : Collaborators σ) : Handler BrowserOp BrowserOp.Ret σ
  | .createBrowserNavigation pages, s => c.createBrowserNavigation pages s
  | .steady navigation, s => c.steady navigation s
  | .nodeEnv, s => (.returned (c.nodeEnv s), s)
  | .getElementById id, s => (.returned (c.getElementById id s), s)
  | .hydrate element container, s => c.hydrate element container s
  | .render element container, s => c.render element container s

/-! ## The source -/

/-- Line 37: `process.env.NODE_ENV === "production"`, a strict comparison of the
flag with the string literal. -/
def hasStaticContent (nodeEnv : Option String) : Bool :=
  nodeEnv == some "production"

/-- Line 38: `hasStaticContent ? ReactDOM.hydrate : ReactDOM.render`. -/
def renderer (hasStaticContent : Bool) : Element → Option DomNode → BrowserOp :=
  if hasStaticContent then BrowserOp.hydrate else BrowserOp.render

/-- Lines 24-45: the body of `async main()`.  `pages` and `App` are the module-level
imports the body closes over; `main` itself takes no argument.  The arguments of the
renderer call are evaluated left to right: the element first (no external call), then
the lookup of `"root"`. -/
def main (pages : RouteTree) (App : Component) : Script BrowserOp BrowserOp.Ret Unit :=
  .call (.createBrowserNavigation pages) fun navigation =>
  .call (.steady navigation) fun _ =>
  .call .nodeEnv fun nodeEnv =>
  .call (.getElementById "root") fun root =>
  .call (renderer (hasStaticContent nodeEnv) ⟨App, navigation⟩ root) fun _ =>
  .done ()

/-- The `exports` field of the descriptor. -/
structure Exports where
  App : Component

/-- The object literal passed to `Navi.app`. -/
structure Descriptor where
  pages : RouteTree
  exports : Exports
  main : Script BrowserOp BrowserOp.Ret Unit

/-- What top-level module code can call: the registration `Navi.app(descriptor)`, or
any of the browser-side operations directly. -/
inductive ModuleOp where
  | app (descriptor : Descriptor)
  | browser (op : BrowserOp)

/-- Result type of each top-level operation. -/
def ModuleOp.Ret : ModuleOp → Type
  | .app _ => Unit
  | .browser op => op.Ret

/-- Whether the top-level operation is a browser-side one. -/
def ModuleOp.isBrowser : ModuleOp → Bool
  | .browser _ => true
  | .app _ => false

/-- Lines 10-46: the object literal `{ pages, exports: { App }, async main() {...} }`. -/
def descriptor (pages : RouteTree) (App : Component) : Descriptor :=
  { pages := pages, exports := { App := App }, main := main pages App }

/-- Lines 10-46: the module body after its imports, one `Navi.app({...})` statement. -/
def index (pages : RouteTree) (App : Component) : Script ModuleOp ModuleOp.Ret Unit :=
  .call (.app (descriptor pages App)) fun _ =>
  .done ()

/-- One execution of `main` against the collaborators `c` from the world `s`. -/
def runMain {σ : Type} (c : Collaborators σ) (pages : RouteTree) (App : Component) (s : σ) :
    Run BrowserOp BrowserOp.Ret σ Unit :=
  (main pages App).run c.handler s

/-- The renderer call `main` makes once the wait has returned in world `s`: the entry
point chosen from the flag read in `s`, applied to `<App navigation={navigation} />`
and to the result of looking up `"root"` in `s`. -/
def rendererCall {σ : Type} (c : Collaborators σ) (App : Component)
    (navigation : Navigation) (s : σ) : BrowserOp :=
  renderer (hasStaticContent (c.nodeEnv s)) ⟨App, navigation⟩ (c.getElementById "root" s)

/-! ## A concrete browser, for evaluating runs -/

/-- A small world: the environment flag, the element with id `root` if any, whether
the initial route is going to fail, whether the readiness promise rejects, the state
of the one navigation, and how many times a renderer has mounted. -/
structure World where
  nodeEnv : Option String
  root : Option DomNode
  routeFails : Bool
  steadyRejects : Bool
  navState : NavState
  mounted : Nat
  deriving DecidableEq, Repr

/-- Collaborators over `World`.  The navigation is object `1`; `steady` settles it to
`resolved` or `failed`, or rejects when the world says so; a renderer throws when
the container is `null`. -/
def browser : Collaborators World where
  createBrowserNavigation := fun _ w => (.returned ⟨1⟩, { w with navState := .pending })
  steady := fun _ w =>
    if w.steadyRejects then (.threw ⟨"steady rejected"⟩, w)
    else (.returned (), { w with navState := if w.routeFails then .failed else .resolved })
  nodeEnv := fun w => w.nodeEnv
  getElementById := fun id w => if id = "root" then w.root else none
  hydrate := fun _ container w =>
    match container with
    | some _ => (.returned (), { w with mounted := w.mounted + 1 })
    | none => (.threw ⟨"Target container is not a DOM element."⟩, w)
  render := fun _ container w =>
    match container with
    | some _ => (.returned (), { w with mounted := w.mounted + 1 })
    | none => (.threw ⟨"Target container is not a DOM element."⟩, w)
  navState := fun _ w => w.navState

/-- A variant of `browser` whose readiness promise rejects when the initial route fails
to resolve: the navigation settles as `failed` and the wait throws the resolution
error. -/
def strictBrowser : Collaborators World :=
  { browser with
    steady := fun navigation w =>
      if w.routeFails then
        (.threw ⟨"initial route failed to resolve"⟩, { w with navState := .failed })
      else browser.steady navigation w }

/-- A development page load: flag as given, mount target present, route resolves. -/
def freshWorld (flag : Option String) : World :=
  { nodeEnv := flag, root := some ⟨0⟩, routeFails := false, steadyRejects := false,
    navState := .pending, mounted := 0 }

/-! ## Shapes of a run of `main` -/

section Shapes

variable {σ : Type} (c : Collaborators σ) (pages : RouteTree) (App : Component)

theorem handler_create (s : σ) :
    c.handler (.createBrowserNavigation pages) s = c.createBrowserNavigation pages s := rfl

theorem handler_steady (nav : Navigation) (s : σ) :
    c.handler (.steady nav) s = c.steady nav s := rfl

theorem handler_nodeEnv (s : σ) :
    c.handler .nodeEnv s = (.returned (c.nodeEnv s), s) := rfl

theorem handler_getElementById (id : String) (s : σ) :
    c.handler (.getElementById id) s = (.returned (c.getElementById id s), s) := rfl

theorem runMain_create_threw {s s1 : σ} {e : JsError}
    (hc : c.createBrowserNavigation pages s = (.threw e, s1)) :
    runMain c pages App s = ⟨[⟨.createBrowserNavigation pages, .threw e⟩], .threw e, s1⟩ := by
  simp [runMain, main, Script.run, Collaborators.handler, hc]

theorem runMain_create_pending {s s1 : σ}
    (hc : c.createBrowserNavigation pages s = (.pending, s1)) :
    runMain c pages App s = ⟨[⟨.createBrowserNavigation pages, .pending⟩], .pending, s1⟩ := by
  simp [runMain, main, Script.run, Collaborators.handler, hc]

theorem runMain_steady_threw {s s1 s2 : σ} {nav : Navigation} {e : JsError}
    (hc : c.createBrowserNavigation pages s = (.returned nav, s1))
    (hs : c.steady nav s1 = (.threw e, s2)) :
    runMain c pages App s =
      ⟨[⟨.createBrowserNavigation pages, .returned nav⟩, ⟨.steady nav, .threw e⟩],
        .threw e, s2⟩ := by
  simp [runMain, main, Script.run, Collaborators.handler, hc, hs]

theorem runMain_steady_pending {s s1 s2 : σ} {nav : Navigation}
    (hc : c.createBrowserNavigation pages s = (.returned nav, s1))
    (hs : c.steady nav s1 = (.pending, s2)) :
    runMain c pages App s =
      ⟨[⟨.createBrowserNavigation pages, .returned nav⟩, ⟨.steady nav, .pending⟩],
        .pending, s2⟩ := by
  simp [runMain, main, Script.run, Collaborators.handler, hc, hs]

theorem runMain_steady_returned {s s1 s2 : σ} {nav : Navigation} {u : Unit}
    (hc : c.createBrowserNavigation pages s = (.returned nav, s1))
    (hs : c.steady nav s1 = (.returned u, s2)) :
    runMain c pages App s =
      ⟨[⟨.createBrowserNavigation pages, .returned nav⟩,
        ⟨.steady nav, .returned ()⟩,
        ⟨.nodeEnv, .returned (c.nodeEnv s2)⟩,
        ⟨.getElementById "root", .returned (c.getElementById "root" s2)⟩,
        ⟨rendererCall c App nav s2, (c.handler (rendererCall c App nav s2) s2).1⟩],
        (c.handler (rendererCall c App nav s2) s2).1.void,
        (c.handler (rendererCall c App nav s2) s2).2⟩ := by
  simp only [runMain, main, Script.run, handler_create, handler_steady, handler_nodeEnv,
    handler_getElementById, hc, hs, rendererCall]
  rcases h : c.handler (renderer (hasStaticContent (c.nodeEnv s2)) ⟨App, nav⟩
      (c.getElementById "root" s2)) s2 with ⟨_ | _ | _, s3⟩ <;> simp [Outcome.void]

theorem rendererCall_eq (nav : Navigation) (s : σ) :
    rendererCall c App nav s =
      if c.nodeEnv s = some "production"
      then BrowserOp.hydrate ⟨App, nav⟩ (c.getElementById "root" s)
      else BrowserOp.render ⟨App, nav⟩ (c.getElementById "root" s) := by
  unfold rendererCall renderer hasStaticContent
  by_cases h : c.nodeEnv s = some "production" <;> simp [h]

theorem rendererCall_isRenderer (nav : Navigation) (s : σ) :
    (rendererCall c App nav s).isRenderer = true := by
  rw [rendererCall_eq]; split <;> rfl

theorem rendererCall_inv {nav : Navigation} {s : σ} {el : Element} {tgt : Option DomNode}
    (h : rendererCall c App nav s = .hydrate el tgt ∨ rendererCall c App nav s = .render el tgt) :
    el = ⟨App, nav⟩ ∧ tgt = c.getElementById "root" s := by
  rw [rendererCall_eq] at h
  split at h <;> rcases h with h | h <;> cases h <;> exact ⟨rfl, rfl⟩

theorem rendererCall_cases (nav : Navigation) (s : σ) :
    rendererCall c App nav s = .hydrate ⟨App, nav⟩ (c.getElementById "root" s) ∨
    rendererCall c App nav s = .render ⟨App, nav⟩ (c.getElementById "root" s) := by
  rw [rendererCall_eq]; split
  · exact Or.inl rfl
  · exact Or.inr rfl

theorem created_of_isRenderer (op : BrowserOp) (o : Outcome op.Ret)
    (h : op.isRenderer = true) : Event.created ⟨op, o⟩ = none := by
  cases op <;> simp_all [BrowserOp.isRenderer, Event.created]

end Shapes

/-! ## Render-mode selection -/

/-- Claim C1: in a run of `main` that reaches the selection (the navigation was created
and the readiness wait returned), the calls made are the creation, the wait, the flag
read, the lookup of `"root"` and one renderer call, and for every flag value `v` read
there (a string or absent) that renderer is `ReactDOM.hydrate` if `v` is exactly
`"production"` and `ReactDOM.render` for every other value; nothing but `v` enters
the choice. -/
theorem render_mode_selection {σ : Type} (c : Collaborators σ) (pages : RouteTree)
    (App : Component) (s s1 s2 : σ) (nav : Navigation) (v : Option String)
    (hc : c.createBrowserNavigation pages s = (.returned nav, s1))
    (hs : c.steady nav s1 = (.returned (), s2))
    (hv : c.nodeEnv s2 = v) :
    (v = some "production" →
      calls (runMain c pages App s).trace =
        [.createBrowserNavigation pages, .steady nav, .nodeEnv, .getElementById "root",
          .hydrate ⟨App, nav⟩ (c.getElementById "root" s2)]) ∧
    (v ≠ some "production" →
      calls (runMain c pages App s).trace =
        [.createBrowserNavigation pages, .steady nav, .nodeEnv, .getElementById "root",
          .render ⟨App, nav⟩ (c.getElementById "root" s2)]) ∧
    ((∃ op ∈ calls (runMain c pages App s).trace, op.isHydrate = true) ↔
      v = some "production") ∧
    ((∃ op ∈ calls (runMain c pages App s).trace, op.isRender = true) ↔
      v ≠ some "production") := by
  subst hv
  rw [runMain_steady_returned c pages App hc hs]
  simp only [calls, List.map, rendererCall_eq]
  by_cases h : c.nodeEnv s2 = some "production" <;>
    simp [h, BrowserOp.isHydrate, BrowserOp.isRender]

/-- Witness for C1 at the flag value `"Production"`, which differs from `"production"`
in case only: the run renders afresh. -/
theorem render_mode_selection_witness :
    calls (runMain browser ⟨0⟩ ⟨5⟩ (freshWorld (some "Production"))).trace =
      [.createBrowserNavigation ⟨0⟩, .steady ⟨1⟩, .nodeEnv, .getElementById "root",
        .render ⟨⟨5⟩, ⟨1⟩⟩ (some ⟨0⟩)] :=
  (render_mode_selection browser ⟨0⟩ ⟨5⟩ (freshWorld (some "Production"))
    { freshWorld (some "Production") with navState := .pending }
    { freshWorld (some "Production") with navState := .resolved }
    ⟨1⟩ (some "Production") rfl rfl rfl).2.1 (by decide)

/-! ## Ordering of the readiness wait and the renderer call -/

/-- Claim C2: in every run of `main`, for all collaborators, route trees and flag
values, whenever the call at position `i` of the trace is `ReactDOM.hydrate` or
`ReactDOM.render` of an element, an earlier position `j < i` holds the readiness
wait `steady` on the navigation bound in that element, and that wait returned. -/
theorem render_after_steady {σ : Type} (c : Collaborators σ) (pages : RouteTree)
    (App : Component) (s : σ) (i : Nat) (ev : Event BrowserOp BrowserOp.Ret)
    (el : Element) (tgt : Option DomNode)
    (hi : (runMain c pages App s).trace[i]? = some ev)
    (hop : ev.op = .hydrate el tgt ∨ ev.op = .render el tgt) :
    ∃ j ev0, j < i ∧ (runMain c pages App s).trace[j]? = some ev0 ∧
      ev0.op = .steady el.navigation ∧ ev0.returned = true := by
  rcases hc : c.createBrowserNavigation pages s with ⟨nav | e | _, s1⟩
  · rcases hs : c.steady nav s1 with ⟨u | e | _, s2⟩
    · rw [runMain_steady_returned c pages App hc hs] at hi ⊢
      rcases i with _ | _ | _ | _ | _ | i
      · simp at hi; subst hi; simp at hop
      · simp at hi; subst hi; simp at hop
      · simp at hi; subst hi; simp at hop
      · simp at hi; subst hi; simp at hop
      · simp at hi; subst hi
        obtain ⟨hel, -⟩ := rendererCall_inv c App hop
        subst hel
        exact ⟨1, ⟨.steady nav, .returned ()⟩, by omega, rfl, rfl, rfl⟩
      · simp at hi
    · rw [runMain_steady_threw c pages App hc hs] at hi
      rcases i with _ | _ | i
      · simp at hi; subst hi; simp at hop
      · simp at hi; subst hi; simp at hop
      · simp at hi
    · rw [runMain_steady_pending c pages App hc hs] at hi
      rcases i with _ | _ | i
      · simp at hi; subst hi; simp at hop
      · simp at hi; subst hi; simp at hop
      · simp at hi
  · rw [runMain_create_threw c pages App hc] at hi
    rcases i with _ | i
    · simp at hi; subst hi; simp at hop
    · simp at hi
  · rw [runMain_create_pending c pages App hc] at hi
    rcases i with _ | i
    · simp at hi; subst hi; simp at hop
    · simp at hi

/-- Witness for C2: in a production load the renderer call sits at position 4 and the
returned wait on the same navigation at position 1. -/
theorem render_after_steady_witness :
    ∃ j ev0, j < 4 ∧ (runMain browser ⟨0⟩ ⟨5⟩ (freshWorld (some "production"))).trace[j]? = some ev0 ∧
      ev0.op = .steady (Element.mk ⟨5⟩ ⟨1⟩).navigation ∧ ev0.returned = true :=
  render_after_steady browser ⟨0⟩ ⟨5⟩ (freshWorld (some "production")) 4
    ⟨.hydrate ⟨⟨5⟩, ⟨1⟩⟩ (some ⟨0⟩), .returned ()⟩ ⟨⟨5⟩, ⟨1⟩⟩ (some ⟨0⟩) rfl (Or.inl rfl)

/-! ## Exactly one renderer call -/

/-- Claim C3: in every run of `main` in which the creation of the navigation, the
readiness wait and the renderer call all return, `main` completes normally and the
trace holds exactly one call to a rendering entry point: either one `hydrate` and no
`render`, or one `render` and no `hydrate`. -/
theorem render_exactly_once {σ : Type} (c : Collaborators σ) (pages : RouteTree)
    (App : Component) (s s1 s2 : σ) (nav : Navigation)
    (hc : c.createBrowserNavigation pages s = (.returned nav, s1))
    (hs : c.steady nav s1 = (.returned (), s2))
    (hr : (c.handler (rendererCall c App nav s2) s2).1.isReturned = true) :
    (runMain c pages App s).completion = .returned () ∧
    (calls (runMain c pages App s).trace).countP BrowserOp.isRenderer = 1 ∧
    (((calls (runMain c pages App s).trace).countP BrowserOp.isHydrate = 1 ∧
        (calls (runMain c pages App s).trace).countP BrowserOp.isRender = 0) ∨
      ((calls (runMain c pages App s).trace).countP BrowserOp.isHydrate = 0 ∧
        (calls (runMain c pages App s).trace).countP BrowserOp.isRender = 1)) := by
  rw [runMain_steady_returned c pages App hc hs]
  refine ⟨?_, ?_, ?_⟩
  · revert hr
    generalize (c.handler (rendererCall c App nav s2) s2).1 = o
    cases o <;> simp [Outcome.isReturned, Outcome.void]
  · simp only [calls, List.map, rendererCall_eq]
    split <;> simp [List.countP_cons, BrowserOp.isRenderer]
  · simp only [calls, List.map, rendererCall_eq]
    split <;> simp [List.countP_cons, BrowserOp.isHydrate, BrowserOp.isRender]

/-- Witness for C3: a development load with the mount target present. -/
theorem render_exactly_once_witness :
    (runMain browser ⟨0⟩ ⟨5⟩ (freshWorld none)).completion = .returned () ∧
    (calls (runMain browser ⟨0⟩ ⟨5⟩ (freshWorld none)).trace).countP BrowserOp.isRenderer = 1 ∧
    (((calls (runMain browser ⟨0⟩ ⟨5⟩ (freshWorld none)).trace).countP BrowserOp.isHydrate = 1 ∧
        (calls (runMain browser ⟨0⟩ ⟨5⟩ (freshWorld none)).trace).countP BrowserOp.isRender = 0) ∨
      ((calls (runMain browser ⟨0⟩ ⟨5⟩ (freshWorld none)).trace).countP BrowserOp.isHydrate = 0 ∧
        (calls (runMain browser ⟨0⟩ ⟨5⟩ (freshWorld none)).trace).countP BrowserOp.isRender = 1)) :=
  render_exactly_once browser ⟨0⟩ ⟨5⟩ (freshWorld none)
    { freshWorld none with navState := .pending }
    { freshWorld none with navState := .resolved } ⟨1⟩ rfl rfl rfl

/-! ## The one navigation -/

/-- Claim C4: in every run of the descriptor's `main`, exactly one call to
`createBrowserNavigation` is made and its argument is the route tree the descriptor
registers under `pages`; at most one navigation is created; every readiness wait is
on the navigation that call returned; and every element handed to `hydrate` or
`render` is the descriptor's `App` with that same navigation as its `navigation`
input, the one whose readiness was awaited. -/
theorem one_navigation_handle {σ : Type} (c : Collaborators σ) (pages : RouteTree)
    (App : Component) (s : σ) :
    (calls ((descriptor pages App).main.run c.handler s).trace).filter BrowserOp.isCreate =
      [.createBrowserNavigation (descriptor pages App).pages] ∧
    (created ((descriptor pages App).main.run c.handler s).trace).length ≤ 1 ∧
    (∀ n, BrowserOp.steady n ∈ calls ((descriptor pages App).main.run c.handler s).trace →
      created ((descriptor pages App).main.run c.handler s).trace = [n]) ∧
    (∀ el tgt,
      (BrowserOp.hydrate el tgt ∈ calls ((descriptor pages App).main.run c.handler s).trace ∨
        BrowserOp.render el tgt ∈ calls ((descriptor pages App).main.run c.handler s).trace) →
      el.type = (descriptor pages App).exports.App ∧
      created ((descriptor pages App).main.run c.handler s).trace = [el.navigation] ∧
      BrowserOp.steady el.navigation ∈
        calls ((descriptor pages App).main.run c.handler s).trace) := by
  show (calls (runMain c pages App s).trace).filter BrowserOp.isCreate =
      [.createBrowserNavigation pages] ∧
    (created (runMain c pages App s).trace).length ≤ 1 ∧
    (∀ n, BrowserOp.steady n ∈ calls (runMain c pages App s).trace →
      created (runMain c pages App s).trace = [n]) ∧
    (∀ el tgt,
      (BrowserOp.hydrate el tgt ∈ calls (runMain c pages App s).trace ∨
        BrowserOp.render el tgt ∈ calls (runMain c pages App s).trace) →
      el.type = App ∧
      created (runMain c pages App s).trace = [el.navigation] ∧
      BrowserOp.steady el.navigation ∈ calls (runMain c pages App s).trace)
  rcases hc : c.createBrowserNavigation pages s with ⟨nav | e | _, s1⟩
  · rcases hs : c.steady nav s1 with ⟨u | e | _, s2⟩
    · rw [runMain_steady_returned c pages App hc hs]
      have hR := rendererCall_isRenderer c App nav s2
      have hC := created_of_isRenderer _ (c.handler (rendererCall c App nav s2) s2).1 hR
      have hcr : created
          [⟨.createBrowserNavigation pages, .returned nav⟩,
            ⟨.steady nav, .returned ()⟩,
            ⟨.nodeEnv, .returned (c.nodeEnv s2)⟩,
            ⟨.getElementById "root", .returned (c.getElementById "root" s2)⟩,
            ⟨rendererCall c App nav s2, (c.handler (rendererCall c App nav s2) s2).1⟩] =
          [nav] := by
        have h0 : Event.created ⟨.createBrowserNavigation pages, .returned nav⟩ = some nav := rfl
        have h1 : Event.created ⟨.steady nav, .returned ()⟩ = none := rfl
        have h2 : Event.created ⟨.nodeEnv, .returned (c.nodeEnv s2)⟩ = none := rfl
        have h3 : Event.created
            ⟨.getElementById "root", .returned (c.getElementById "root" s2)⟩ = none := rfl
        simp only [created, List.filterMap_cons, List.filterMap_nil, hC, h0, h1, h2, h3]
      rw [hcr]
      simp only [calls, List.map]
      rcases rendererCall_cases c App nav s2 with h | h <;> rw [h] <;>
        simp [BrowserOp.isCreate]
    · rw [runMain_steady_threw c pages App hc hs]
      simp [calls, created, BrowserOp.isCreate, Event.created, List.filterMap_cons]
    · rw [runMain_steady_pending c pages App hc hs]
      simp [calls, created, BrowserOp.isCreate, Event.created, List.filterMap_cons]
  · rw [runMain_create_threw c pages App hc]
    simp [calls, created, BrowserOp.isCreate, Event.created, List.filterMap_cons]
  · rw [runMain_create_pending c pages App hc]
    simp [calls, created, BrowserOp.isCreate, Event.created, List.filterMap_cons]

/-! ## The outcome of route resolution is not looked at -/

/-- Claim C5: take two runs of `main` with the same route tree and root component, in
which the same navigation is created and the readiness wait returns, the flag and the
lookup of `"root"` agree, but the navigation has settled as `resolved` in the first
and as `failed` in the second.  Both runs make the same sequence of collaborator
calls, with the same entry point and mount target, though the two navigations are in
different states; and the last call of the failed run is a renderer call whose
element is `App` bound to the failed navigation. -/
theorem resolution_outcome_not_inspected {σ τ : Type} (c1 : Collaborators σ)
    (c2 : Collaborators τ) (pages : RouteTree) (App : Component)
    (a a1 a2 : σ) (b b1 b2 : τ) (nav : Navigation)
    (hc1 : c1.createBrowserNavigation pages a = (.returned nav, a1))
    (hs1 : c1.steady nav a1 = (.returned (), a2))
    (hres : c1.navState nav a2 = .resolved)
    (hc2 : c2.createBrowserNavigation pages b = (.returned nav, b1))
    (hs2 : c2.steady nav b1 = (.returned (), b2))
    (hfail : c2.navState nav b2 = .failed)
    (henv : c1.nodeEnv a2 = c2.nodeEnv b2)
    (hroot : c1.getElementById "root" a2 = c2.getElementById "root" b2) :
    calls (runMain c1 pages App a).trace = calls (runMain c2 pages App b).trace ∧
    c1.navState nav a2 ≠ c2.navState nav b2 ∧
    ∃ el tgt,
      ((calls (runMain c2 pages App b).trace).getLast? = some (.hydrate el tgt) ∨
        (calls (runMain c2 pages App b).trace).getLast? = some (.render el tgt)) ∧
      el.type = App ∧ el.navigation = nav ∧ c2.navState el.navigation b2 = .failed ∧
      tgt = c2.getElementById "root" b2 := by
  rw [runMain_steady_returned c1 pages App hc1 hs1, runMain_steady_returned c2 pages App hc2 hs2]
  have hcall : rendererCall c1 App nav a2 = rendererCall c2 App nav b2 := by
    simp only [rendererCall, henv, hroot]
  refine ⟨?_, ?_, ⟨App, nav⟩, c2.getElementById "root" b2, ?_, rfl, rfl, hfail, rfl⟩
  · simp [calls, hcall]
  · rw [hres, hfail]; decide
  · simp only [calls, List.map]
    rcases rendererCall_cases c2 App nav b2 with h | h <;> rw [h] <;> simp

/-- Witness for C5: two production loads of the same page, the first with a route that
resolves, the second with a route whose resolution fails. -/
theorem resolution_outcome_not_inspected_witness :
    calls (runMain browser ⟨0⟩ ⟨5⟩ (freshWorld (some "production"))).trace =
      calls (runMain browser ⟨0⟩ ⟨5⟩
        { freshWorld (some "production") with routeFails := true }).trace :=
  (resolution_outcome_not_inspected browser browser ⟨0⟩ ⟨5⟩
    (freshWorld (some "production"))
    { freshWorld (some "production") with navState := .pending }
    { freshWorld (some "production") with navState := .resolved }
    { freshWorld (some "production") with routeFails := true }
    { freshWorld (some "production") with routeFails := true, navState := .pending }
    { freshWorld (some "production") with routeFails := true, navState := .failed }
    ⟨1⟩ rfl rfl rfl rfl rfl rfl rfl rfl).1

/-! ## A failed resolution and the completion of `main` -/

/-- Claim C6 as stated fails: with a navigation whose readiness promise rejects when
the initial route fails to resolve, the navigation has settled as `failed`, the mount
target exists and the renderer would return, yet `main` fails with the resolution
error and renders nothing.  So "main completes normally whenever the route failed and
the renderer call succeeds" does not hold for all collaborators. -/
theorem resolution_failure_thrown_when_wait_rejects :
    ((runMain strictBrowser ⟨0⟩ ⟨5⟩ { freshWorld none with routeFails := true }).completion =
        .threw ⟨"initial route failed to resolve"⟩ ∧
      calls (runMain strictBrowser ⟨0⟩ ⟨5⟩ { freshWorld none with routeFails := true }).trace =
        [.createBrowserNavigation ⟨0⟩, .steady ⟨1⟩] ∧
      strictBrowser.navState ⟨1⟩
        (runMain strictBrowser ⟨0⟩ ⟨5⟩ { freshWorld none with routeFails := true }).final =
        .failed) ∧
    ¬ ∀ (c : Collaborators World) (pages : RouteTree) (App : Component) (s s1 s2 : World)
        (nav : Navigation) (o : Outcome Unit),
        c.createBrowserNavigation pages s = (.returned nav, s1) →
        c.steady nav s1 = (o, s2) →
        c.navState nav s2 = .failed →
        (c.handler (rendererCall c App nav s2) s2).1.isReturned = true →
        (runMain c pages App s).completion = .returned () := by
  have h2 : runMain strictBrowser ⟨0⟩ ⟨5⟩ { freshWorld none with routeFails := true } =
      ⟨[⟨.createBrowserNavigation ⟨0⟩, .returned ⟨1⟩⟩,
        ⟨.steady ⟨1⟩, .threw ⟨"initial route failed to resolve"⟩⟩],
        .threw ⟨"initial route failed to resolve"⟩,
        { freshWorld none with routeFails := true, navState := .failed }⟩ :=
    runMain_steady_threw strictBrowser ⟨0⟩ ⟨5⟩ rfl rfl
  refine ⟨?_, ?_⟩
  · rw [h2]; exact ⟨rfl, rfl, rfl⟩
  · intro h
    have h1 := h strictBrowser ⟨0⟩ ⟨5⟩ { freshWorld none with routeFails := true }
      { freshWorld none with routeFails := true, navState := .pending }
      { freshWorld none with routeFails := true, navState := .failed }
      ⟨1⟩ (.threw ⟨"initial route failed to resolve"⟩) rfl rfl rfl rfl
    rw [h2] at h1
    cases h1

/-- Claim C6, amended: `main` neither catches nor raises anything on account of how the
initial route resolved; how it completes is decided by the readiness wait and the
renderer call alone.  In every run in which the navigation was created: if the wait
returns, then whatever state the navigation settled in (`failed` included) every call
before the renderer call has returned, the renderer is called last with `App` bound
to that navigation, and `main` completes exactly as the renderer call does, normally
when it returns; if the wait throws `e`, `main` fails with `e` after just the creation
and the wait; if the wait never settles, neither does `main`. -/
theorem resolution_failure_not_thrown {σ : Type} (c : Collaborators σ) (pages : RouteTree)
    (App : Component) (s s1 s2 : σ) (nav : Navigation) (o : Outcome Unit)
    (hc : c.createBrowserNavigation pages s = (.returned nav, s1))
    (hw : c.steady nav s1 = (o, s2)) :
    (o = .returned () →
      (runMain c pages App s).completion =
        (c.handler (rendererCall c App nav s2) s2).1.void ∧
      ((c.handler (rendererCall c App nav s2) s2).1.isReturned = true →
        (runMain c pages App s).completion = .returned ()) ∧
      (∀ ev ∈ (runMain c pages App s).trace, ev.op.isRenderer = false → ev.returned = true) ∧
      (calls (runMain c pages App s).trace).getLast? = some (rendererCall c App nav s2) ∧
      ∀ el tgt, (rendererCall c App nav s2 = .hydrate el tgt ∨
          rendererCall c App nav s2 = .render el tgt) →
        el.type = App ∧ el.navigation = nav ∧
        c.navState el.navigation s2 = c.navState nav s2) ∧
    (∀ e, o = .threw e →
      (runMain c pages App s).completion = .threw e ∧
      calls (runMain c pages App s).trace = [.createBrowserNavigation pages, .steady nav]) ∧
    (o = .pending →
      (runMain c pages App s).completion = .pending ∧
      calls (runMain c pages App s).trace = [.createBrowserNavigation pages, .steady nav]) := by
  refine ⟨?_, ?_, ?_⟩
  · rintro rfl
    rw [runMain_steady_returned c pages App hc hw]
    refine ⟨rfl, ?_, ?_, ?_, ?_⟩
    · generalize (c.handler (rendererCall c App nav s2) s2).1 = o
      cases o <;> simp [Outcome.isReturned, Outcome.void]
    · intro ev hev hnr
      simp only [List.mem_cons, List.mem_singleton, List.not_mem_nil, or_false] at hev
      rcases hev with rfl | rfl | rfl | rfl | rfl
      · rfl
      · rfl
      · rfl
      · rfl
      · rw [rendererCall_isRenderer] at hnr; cases hnr
    · simp [calls]
    · intro el tgt h
      obtain ⟨rfl, -⟩ := rendererCall_inv c App h
      exact ⟨rfl, rfl, rfl⟩
  · rintro e rfl
    rw [runMain_steady_threw c pages App hc hw]
    exact ⟨rfl, rfl⟩
  · rintro rfl
    rw [runMain_steady_pending c pages App hc hw]
    exact ⟨rfl, rfl⟩

/-- Witness for the amended C6: a development load whose initial route fails to resolve
while the wait returns, with the mount target present: `main` completes normally. -/
theorem resolution_failure_not_thrown_witness :
    (runMain browser ⟨0⟩ ⟨5⟩ { freshWorld none with routeFails := true }).completion =
      .returned () :=
  ((resolution_failure_not_thrown browser ⟨0⟩ ⟨5⟩
    { freshWorld none with routeFails := true }
    { freshWorld none with routeFails := true, navState := .pending }
    { freshWorld none with routeFails := true, navState := .failed }
    ⟨1⟩ (.returned ()) rfl rfl).1 rfl).2.1 rfl

/-! ## Loading the module -/

/-- Claim C7: however `Navi.app` behaves, evaluating the module body makes exactly one
call, the registration `Navi.app(descriptor)`; the descriptor holds the route tree
under `pages`, the root component under `exports.App` and the argument-free script
`main` under `main`; and the module body itself makes no browser-side call: it
creates no navigation, starts no readiness wait, does not read the flag, looks up no
element and calls no renderer. -/
theorem module_load_registers_once {σ : Type} (h : Handler ModuleOp ModuleOp.Ret σ)
    (pages : RouteTree) (App : Component) (s : σ) :
    calls ((index pages App).run h s).trace = [.app (descriptor pages App)] ∧
    (descriptor pages App).pages = pages ∧
    (descriptor pages App).exports.App = App ∧
    (descriptor pages App).main = main pages App ∧
    ((calls ((index pages App).run h s).trace).filter ModuleOp.isBrowser = []) := by
  refine ⟨?_, rfl, rfl, rfl, ?_⟩ <;>
    · unfold index
      simp only [Script.run]
      rcases h (.app (descriptor pages App)) s with ⟨_ | _ | _, s1⟩ <;>
        simp [calls, ModuleOp.isBrowser]

/-! ## Renderer failures -/

/-- Claim C8: in every run of `main` that reaches the renderer call, the second
argument of that call is the result of `document.getElementById("root")`, whatever it
is and also when it is `null`; `main` completes exactly as the renderer call does;
and when the renderer call throws `e`, `main` fails with `e`, the failed call is the
last call of the run, and the run holds just that one renderer call. -/
theorem renderer_failure_propagates {σ : Type} (c : Collaborators σ) (pages : RouteTree)
    (App : Component) (s s1 s2 : σ) (nav : Navigation)
    (hc : c.createBrowserNavigation pages s = (.returned nav, s1))
    (hs : c.steady nav s1 = (.returned (), s2)) :
    (∀ el tgt, (BrowserOp.hydrate el tgt ∈ calls (runMain c pages App s).trace ∨
        BrowserOp.render el tgt ∈ calls (runMain c pages App s).trace) →
      tgt = c.getElementById "root" s2) ∧
    (runMain c pages App s).completion = (c.handler (rendererCall c App nav s2) s2).1.void ∧
    ∀ e, (c.handler (rendererCall c App nav s2) s2).1 = .threw e →
      (runMain c pages App s).completion = .threw e ∧
      (calls (runMain c pages App s).trace).getLast? = some (rendererCall c App nav s2) ∧
      (calls (runMain c pages App s).trace).countP BrowserOp.isRenderer = 1 ∧
      (runMain c pages App s).final = (c.handler (rendererCall c App nav s2) s2).2 := by
  rw [runMain_steady_returned c pages App hc hs]
  have hcount : (calls
      [(⟨.createBrowserNavigation pages, .returned nav⟩ : Event BrowserOp BrowserOp.Ret),
        ⟨.steady nav, .returned ()⟩,
        ⟨.nodeEnv, .returned (c.nodeEnv s2)⟩,
        ⟨.getElementById "root", .returned (c.getElementById "root" s2)⟩,
        ⟨rendererCall c App nav s2, (c.handler (rendererCall c App nav s2) s2).1⟩]).countP
      BrowserOp.isRenderer = 1 := by
    simp only [calls, List.map]
    rcases rendererCall_cases c App nav s2 with h | h <;> rw [h] <;>
      simp [List.countP_cons, BrowserOp.isRenderer]
  refine ⟨?_, rfl, ?_⟩
  · intro el tgt h
    simp only [calls, List.map, List.mem_cons, List.mem_singleton, List.not_mem_nil,
      or_false] at h
    have h2 : rendererCall c App nav s2 = .hydrate el tgt ∨
        rendererCall c App nav s2 = .render el tgt := by
      rcases h with h | h
      · rcases h with h | h | h | h | h
        · cases h
        · cases h
        · cases h
        · cases h
        · exact Or.inl h.symm
      · rcases h with h | h | h | h | h
        · cases h
        · cases h
        · cases h
        · cases h
        · exact Or.inr h.symm
    exact (rendererCall_inv c App h2).2
  · intro e he
    refine ⟨?_, ?_, hcount, rfl⟩
    · simp only [he, Outcome.void]
    · simp [calls]

/-- Witness for C8: no element with id `root` exists, the lookup gives `null`, the
renderer receives `null` and throws, and `main` fails with the renderer's error. -/
theorem renderer_failure_propagates_witness :
    (runMain browser ⟨0⟩ ⟨5⟩ { freshWorld none with root := none }).completion =
      .threw ⟨"Target container is not a DOM element."⟩ :=
  ((renderer_failure_propagates browser ⟨0⟩ ⟨5⟩
    { freshWorld none with root := none }
    { freshWorld none with root := none, navState := .pending }
    { freshWorld none with root := none, navState := .resolved }
    ⟨1⟩ rfl rfl).2.2 ⟨"Target container is not a DOM element."⟩ rfl).1

/-! ## Reading the environment flag -/

/-- Claim C9 as stated fails: in a run whose readiness wait rejects, the flag is never
read, so "read exactly once in every run" does not hold. -/
theorem flag_read_once_in_every_run_fails :
    ¬ ∀ (c : Collaborators World) (pages : RouteTree) (App : Component) (s : World),
      (calls (runMain c pages App s).trace).count BrowserOp.nodeEnv = 1 := by
  intro h
  have h1 := h browser ⟨0⟩ ⟨5⟩ { freshWorld none with steadyRejects := true }
  have h2 : runMain browser ⟨0⟩ ⟨5⟩ { freshWorld none with steadyRejects := true } =
      ⟨[⟨.createBrowserNavigation ⟨0⟩, .returned ⟨1⟩⟩,
        ⟨.steady ⟨1⟩, .threw ⟨"steady rejected"⟩⟩],
        .threw ⟨"steady rejected"⟩,
        { freshWorld none with steadyRejects := true, navState := .pending }⟩ :=
    runMain_steady_threw browser ⟨0⟩ ⟨5⟩ rfl rfl
  rw [h2] at h1
  simp [calls] at h1

/-- Claim C9, amended: for all collaborators, in every run of `main` the flag is read at
most once: exactly once when the run holds a returned readiness wait and not at all
otherwise.  In every run in which the navigation is created and the wait returns, the
read is the call right after the returned wait and before the lookup and the renderer
call, which is the last call.  The value is not kept between runs: for two runs, from
any worlds, with the flag `"production"` when the first reads it and anything else
when the second reads it, the first calls `hydrate` and the second calls `render`. -/
theorem flag_read_once_after_wait {σ : Type} (c : Collaborators σ) (pages : RouteTree)
    (App : Component) :
    (∀ w, (calls (runMain c pages App w).trace).count BrowserOp.nodeEnv ≤ 1) ∧
    (∀ w, (calls (runMain c pages App w).trace).count BrowserOp.nodeEnv =
      if waitReturned (runMain c pages App w).trace = true then 1 else 0) ∧
    (∀ (s s1 s2 : σ) (nav : Navigation),
      c.createBrowserNavigation pages s = (.returned nav, s1) →
      c.steady nav s1 = (.returned (), s2) →
      (calls (runMain c pages App s).trace).count BrowserOp.nodeEnv = 1 ∧
      calls (runMain c pages App s).trace =
        [.createBrowserNavigation pages, .steady nav, .nodeEnv, .getElementById "root",
          rendererCall c App nav s2] ∧
      (rendererCall c App nav s2).isRenderer = true ∧
      ((runMain c pages App s).trace.map Event.returned).take 4 =
        [true, true, true, true]) ∧
    (∀ (τ : Type) (c2 : Collaborators τ) (s s1 s2 : σ) (t t1 t2 : τ) (nav nav2 : Navigation),
      c.createBrowserNavigation pages s = (.returned nav, s1) →
      c.steady nav s1 = (.returned (), s2) →
      c2.createBrowserNavigation pages t = (.returned nav2, t1) →
      c2.steady nav2 t1 = (.returned (), t2) →
      c.nodeEnv s2 = some "production" →
      c2.nodeEnv t2 ≠ some "production" →
      calls (runMain c pages App s).trace =
        [.createBrowserNavigation pages, .steady nav, .nodeEnv, .getElementById "root",
          .hydrate ⟨App, nav⟩ (c.getElementById "root" s2)] ∧
      calls (runMain c2 pages App t).trace =
        [.createBrowserNavigation pages, .steady nav2, .nodeEnv, .getElementById "root",
          .render ⟨App, nav2⟩ (c2.getElementById "root" t2)]) := by
  have hcount : ∀ w, (calls (runMain c pages App w).trace).count BrowserOp.nodeEnv =
      if waitReturned (runMain c pages App w).trace = true then 1 else 0 := by
    intro w
    rcases hcw : c.createBrowserNavigation pages w with ⟨n | e | _, w1⟩
    · rcases hsw : c.steady n w1 with ⟨u | e | _, w2⟩
      · rw [runMain_steady_returned c pages App hcw hsw]
        have hw : waitReturned
            [⟨.createBrowserNavigation pages, .returned n⟩,
              ⟨.steady n, .returned ()⟩,
              ⟨.nodeEnv, .returned (c.nodeEnv w2)⟩,
              ⟨.getElementById "root", .returned (c.getElementById "root" w2)⟩,
              ⟨rendererCall c App n w2, (c.handler (rendererCall c App n w2) w2).1⟩] =
            true := by
          simp [waitReturned, BrowserOp.isSteady, Event.returned, Outcome.isReturned]
        rw [hw]
        simp only [calls, List.map]
        rcases rendererCall_cases c App n w2 with h | h <;> rw [h] <;> simp
      · rw [runMain_steady_threw c pages App hcw hsw]
        simp [calls, waitReturned, BrowserOp.isSteady, Event.returned, Outcome.isReturned]
      · rw [runMain_steady_pending c pages App hcw hsw]
        simp [calls, waitReturned, BrowserOp.isSteady, Event.returned, Outcome.isReturned]
    · rw [runMain_create_threw c pages App hcw]
      simp [calls, waitReturned, BrowserOp.isSteady, Event.returned, Outcome.isReturned]
    · rw [runMain_create_pending c pages App hcw]
      simp [calls, waitReturned, BrowserOp.isSteady, Event.returned, Outcome.isReturned]
  refine ⟨?_, hcount, ?_, ?_⟩
  · intro w
    rw [hcount w]
    split <;> omega
  · intro s s1 s2 nav hc hs
    rw [runMain_steady_returned c pages App hc hs]
    refine ⟨?_, ?_, rendererCall_isRenderer c App nav s2, rfl⟩
    · simp only [calls, List.map]
      rcases rendererCall_cases c App nav s2 with h | h <;> rw [h] <;> simp
    · simp [calls]
  · intro τ c2 s s1 s2 t t1 t2 nav nav2 hc hs hc2 hs2 hprod hother
    constructor
    · rw [runMain_steady_returned c pages App hc hs]
      simp [calls, rendererCall_eq, hprod]
    · rw [runMain_steady_returned c2 pages App hc2 hs2]
      simp [calls, rendererCall_eq, hother]

/-- Witness for the amended C9: a production load followed by a load with the flag set
to `"development"`: the first hydrates, the second renders. -/
theorem flag_read_once_after_wait_witness :
    calls (runMain browser ⟨0⟩ ⟨5⟩ (freshWorld (some "production"))).trace =
      [.createBrowserNavigation ⟨0⟩, .steady ⟨1⟩, .nodeEnv, .getElementById "root",
        .hydrate ⟨⟨5⟩, ⟨1⟩⟩ (some ⟨0⟩)] ∧
    calls (runMain browser ⟨0⟩ ⟨5⟩ (freshWorld (some "development"))).trace =
      [.createBrowserNavigation ⟨0⟩, .steady ⟨1⟩, .nodeEnv, .getElementById "root",
        .render ⟨⟨5⟩, ⟨1⟩⟩ (some ⟨0⟩)] :=
  (flag_read_once_after_wait browser ⟨0⟩ ⟨5⟩).2.2.2 World browser
    (freshWorld (some "production"))
    { freshWorld (some "production") with navState := .pending }
    { freshWorld (some "production") with navState := .resolved }
    (freshWorld (some "development"))
    { freshWorld (some "development") with navState := .pending }
    { freshWorld (some "development") with navState := .resolved }
    ⟨1⟩ ⟨1⟩ rfl rfl rfl rfl rfl (by decide)

/-! ## A rejected readiness wait -/

/-- Claim C10: in every run of `main` in which the navigation is created and the
readiness wait throws `e` (its promise rejects with `e`), `main` fails with exactly
`e`, the wait is the last call made, the world is left as the wait left it, and the
run contains no read of the flag, no element lookup and no call to `hydrate` or
`render`. -/
theorem steady_rejection_propagates {σ : Type} (c : Collaborators σ) (pages : RouteTree)
    (App : Component) (s s1 s2 : σ) (nav : Navigation) (e : JsError)
    (hc : c.createBrowserNavigation pages s = (.returned nav, s1))
    (hs : c.steady nav s1 = (.threw e, s2)) :
    (runMain c pages App s).completion = .threw e ∧
    calls (runMain c pages App s).trace = [.createBrowserNavigation pages, .steady nav] ∧
    (runMain c pages App s).final = s2 ∧
    BrowserOp.nodeEnv ∉ calls (runMain c pages App s).trace ∧
    (∀ id, BrowserOp.getElementById id ∉ calls (runMain c pages App s).trace) ∧
    (∀ el tgt, BrowserOp.hydrate el tgt ∉ calls (runMain c pages App s).trace) ∧
    (∀ el tgt, BrowserOp.render el tgt ∉ calls (runMain c pages App s).trace) := by
  rw [runMain_steady_threw c pages App hc hs]
  simp [calls]

/-- Witness for C10: a load whose readiness promise rejects. -/
theorem steady_rejection_propagates_witness :
    (runMain browser ⟨0⟩ ⟨5⟩ { freshWorld none with steadyRejects := true }).completion =
      .threw ⟨"steady rejected"⟩ ∧
    calls (runMain browser ⟨0⟩ ⟨5⟩ { freshWorld none with steadyRejects := true }).trace =
      [.createBrowserNavigation ⟨0⟩, .steady ⟨1⟩] :=
  have h := steady_rejection_propagates browser ⟨0⟩ ⟨5⟩
    { freshWorld none with steadyRejects := true }
    { freshWorld none with steadyRejects := true, navState := .pending }
    { freshWorld none with steadyRejects := true, navState := .pending }
    ⟨1⟩ ⟨"steady rejected"⟩ rfl rfl
  ⟨h.1, h.2.1⟩

end NaviApp
